import Mathlib

/-!
Verification of the MV-Realty read-through cache server (`src/main.go`).

The development shallowly embeds the Go program:

* JSON documents become the inductive `Json` (numbers are modelled as `Rat`,
  since the program never computes with them — it only decodes and re-encodes).
* Go slices of the top-level snapshot become `GoSlice α := Option (List α)`,
  where `none` models a `nil` Go slice (which `encoding/json` serializes as
  JSON `null`) and `some l` a non-nil slice.
* `fetchPropertiesFromSanity` becomes a pure function from an abstract
  upstream response (`FetchResponse`) and the previous snapshot to the new
  snapshot plus the list of emitted log events.
* The two HTTP handlers become pure functions from the snapshot (and the
  slug path parameter) to an `HttpResponse`; the `encoding/json` encoder and
  `http.Error` from the Go standard library are modelled as producing the
  JSON tree resp. the plain-text message.
* `main`'s startup sequence becomes `runMain` over a `StartupEnv`.
-/

/-- A JSON document, the decode result of `encoding/json` on a byte body. -/
inductive Json where
  | null
  | bool (b : Bool)
  | num (q : Rat)
  | str (s : String)
  | arr (elems : List Json)
  | obj (fields : List (String × Json))

/-- A Go slice: `none` is the `nil` slice, `some l` a non-nil slice holding
`l`. `encoding/json` serializes `nil` as `null` and a non-nil empty slice as
`[]`, so the distinction is observable on the HTTP surface. -/
abbrev GoSlice (α : Type) : Type := Option (List α)

/-- `type Slug struct` from `src/main.go` (fields `current`, `_type`). -/
structure Slug where
  current : String
  type : String
deriving DecidableEq, Repr

/-- `type Reference struct` (fields `_ref`, `_type`). -/
structure Reference where
  ref : String
  type : String
deriving DecidableEq, Repr

/-- `type GeoLocation struct` (fields `_type`, `lat`, `lng`). -/
structure GeoLocation where
  type : String
  lat : Rat
  lng : Rat
deriving DecidableEq, Repr

/-- `type Asset struct` (fields `_ref`, `_type`). -/
structure Asset where
  ref : String
  type : String
deriving DecidableEq, Repr

/-- `type SanityImage struct` (fields `_key`, `_type`, `asset`). -/
structure SanityImage where
  key : String
  type : String
  asset : Asset
deriving DecidableEq, Repr

/-- `type Facility struct` (fields `facilityType`, `facilityName`,
`description`, `photos`). -/
structure Facility where
  facilityType : Reference
  facilityName : String
  description : String
  photos : GoSlice SanityImage
deriving DecidableEq, Repr

/-- `type Property struct` from `src/main.go`, field for field, with the
JSON tag names recorded in the decoder and encoder below. -/
structure Property where
  id : String
  title : String
  slug : Slug
  developer : Reference
  description : String
  mapUrl : String
  geoLocation : GeoLocation
  minPrice : Rat
  maxPrice : Rat
  facilities : GoSlice Facility
  photos : GoSlice SanityImage
  built : Int
  createdAt : String
deriving DecidableEq, Repr

/-- The Go zero value of `Slug`. -/
def Slug.zero : Slug := ⟨"", ""⟩

/-- The Go zero value of `Reference`. -/
def Reference.zero : Reference := ⟨"", ""⟩

/-- The Go zero value of `GeoLocation`. -/
def GeoLocation.zero : GeoLocation := ⟨"", 0, 0⟩

/-- The Go zero value of `Asset`. -/
def Asset.zero : Asset := ⟨"", ""⟩

/-- The Go zero value of `SanityImage`. -/
def SanityImage.zero : SanityImage := ⟨"", "", Asset.zero⟩

/-- The Go zero value of `Property` (all strings empty, numbers `0`,
slices `nil`). -/
def Property.zero : Property :=
  ⟨"", "", Slug.zero, Reference.zero, "", "", GeoLocation.zero, 0, 0,
    none, none, 0, ""⟩

/-! ## Decoding (the `encoding/json` unmarshal semantics used by the program)

`json.Unmarshal` into a Go struct either succeeds, producing a fully decoded
value, or returns an error; the program drops any `Property` whose decode
errored (`continue` in the loop), so decoding is modelled all-or-nothing as
`Option`.  Per `encoding/json`: a missing field or a JSON `null` leaves the
field at its zero value; a value of the wrong JSON kind is an error; unknown
object keys are ignored; on duplicate keys the last occurrence wins. -/

/-- Look a key up in a decoded JSON object, last occurrence winning, as
`encoding/json` assigns object members in order. -/
def jLookup (fields : List (String × Json)) (k : String) : Option Json :=
  fields.foldl (fun acc p => if p.1 = k then some p.2 else acc) none

/-- Unmarshal an (optional) object member into a `string` field: absent or
`null` yields the zero value `""`, a JSON string yields itself, any other
kind is a decode error. -/
def jStr : Option Json → Option String
  | none => some ""
  | some Json.null => some ""
  | some (Json.str s) => some s
  | some _ => none

/-- Unmarshal an (optional) object member into a `float32`/`float64` field
(numeric value abstracted as `Rat`): absent or `null` yields `0`, a JSON
number yields itself, any other kind is a decode error. -/
def jNum : Option Json → Option Rat
  | none => some 0
  | some Json.null => some 0
  | some (Json.num q) => some q
  | some _ => none

/-- Unmarshal an (optional) object member into an `int` field: absent or
`null` yields `0`, an integral JSON number yields its value, a fractional
number or any other kind is a decode error. -/
def jInt : Option Json → Option Int
  | none => some 0
  | some Json.null => some 0
  | some (Json.num q) => if q.den = 1 then some q.num else none
  | some _ => none

/-- Unmarshal the `slug` member into a `Slug`: absent or `null` leaves the
zero struct, an object decodes its `current` and `_type` members. -/
def decodeSlug : Option Json → Option Slug
  | none => some Slug.zero
  | some Json.null => some Slug.zero
  | some (Json.obj fs) => do
      let current ← jStr (jLookup fs "current")
      let type ← jStr (jLookup fs "_type")
      pure ⟨current, type⟩
  | some _ => none

/-- Unmarshal a `Reference` member (`_ref`, `_type`). -/
def decodeReference : Option Json → Option Reference
  | none => some Reference.zero
  | some Json.null => some Reference.zero
  | some (Json.obj fs) => do
      let ref ← jStr (jLookup fs "_ref")
      let type ← jStr (jLookup fs "_type")
      pure ⟨ref, type⟩
  | some _ => none

/-- Unmarshal the `geoLocation` member (`_type`, `lat`, `lng`). -/
def decodeGeoLocation : Option Json → Option GeoLocation
  | none => some GeoLocation.zero
  | some Json.null => some GeoLocation.zero
  | some (Json.obj fs) => do
      let type ← jStr (jLookup fs "_type")
      let lat ← jNum (jLookup fs "lat")
      let lng ← jNum (jLookup fs "lng")
      pure ⟨type, lat, lng⟩
  | some _ => none

/-- Unmarshal the `asset` member of an image (`_ref`, `_type`). -/
def decodeAsset : Option Json → Option Asset
  | none => some Asset.zero
  | some Json.null => some Asset.zero
  | some (Json.obj fs) => do
      let ref ← jStr (jLookup fs "_ref")
      let type ← jStr (jLookup fs "_type")
      pure ⟨ref, type⟩
  | some _ => none

/-- Unmarshal one element of a `[]SanityImage` array: `null` leaves the zero
value in the slot, an object decodes `_key`, `_type` and `asset`. -/
def decodeImageElem : Json → Option SanityImage
  | Json.null => some SanityImage.zero
  | Json.obj fs => do
      let key ← jStr (jLookup fs "_key")
      let type ← jStr (jLookup fs "_type")
      let asset ← decodeAsset (jLookup fs "asset")
      pure ⟨key, type, asset⟩
  | _ => none

/-- Unmarshal a `photos` member into a `[]SanityImage`: absent or `null`
leaves the `nil` slice, an array decodes each element (any element error is
an error for the whole value), any other kind is a decode error. -/
def decodeImages : Option Json → Option (GoSlice SanityImage)
  | none => some none
  | some Json.null => some none
  | some (Json.arr xs) => (xs.mapM decodeImageElem).map some
  | some _ => none

/-- Unmarshal one element of the `facilities` array. -/
def decodeFacilityElem : Json → Option Facility
  | Json.null => some ⟨Reference.zero, "", "", none⟩
  | Json.obj fs => do
      let facilityType ← decodeReference (jLookup fs "facilityType")
      let facilityName ← jStr (jLookup fs "facilityName")
      let description ← jStr (jLookup fs "description")
      let photos ← decodeImages (jLookup fs "photos")
      pure ⟨facilityType, facilityName, description, photos⟩
  | _ => none

/-- Unmarshal the `facilities` member into a `[]Facility`. -/
def decodeFacilities : Option Json → Option (GoSlice Facility)
  | none => some none
  | some Json.null => some none
  | some (Json.arr xs) => (xs.mapM decodeFacilityElem).map some
  | some _ => none

/-- `json.Unmarshal(propertyBytes, &property)` for one element of the
`result` array (the program marshals the dynamically decoded element back to
bytes and re-unmarshals it, which composes to decoding the JSON value
directly).  A `null` element leaves the zero `Property` without error; a
non-object, non-null element or any field of the wrong kind is an error. -/
def decodeProperty : Json → Option Property
  | Json.null => some Property.zero
  | Json.obj fs => do
      let id ← jStr (jLookup fs "_id")
      let title ← jStr (jLookup fs "title")
      let slug ← decodeSlug (jLookup fs "slug")
      let developer ← decodeReference (jLookup fs "developer")
      let description ← jStr (jLookup fs "description")
      let mapUrl ← jStr (jLookup fs "mapUrl")
      let geoLocation ← decodeGeoLocation (jLookup fs "geoLocation")
      let minPrice ← jNum (jLookup fs "minPrice")
      let maxPrice ← jNum (jLookup fs "maxPrice")
      let facilities ← decodeFacilities (jLookup fs "facilities")
      let photos ← decodeImages (jLookup fs "photos")
      let built ← jInt (jLookup fs "built")
      let createdAt ← jStr (jLookup fs "createdAt")
      pure ⟨id, title, slug, developer, description, mapUrl, geoLocation,
        minPrice, maxPrice, facilities, photos, built, createdAt⟩
  | _ => none

/-! ## Encoding (the `encoding/json` marshal semantics used by the handlers)

`json.NewEncoder(w).Encode(v)` writes the JSON serialization of `v`;
the serialization is modelled as the `Json` tree it denotes (struct fields in
declaration order under their tag names, `nil` slices as `null`, non-nil
slices as arrays). -/

/-- Marshal a Go slice: `nil` serializes as `null`, a non-nil slice as an
array of its elements. -/
def encodeGoSlice (f : α → Json) : GoSlice α → Json
  | none => Json.null
  | some l => Json.arr (l.map f)

/-- Marshal a `Slug`. -/
def encodeSlug (s : Slug) : Json :=
  Json.obj [("current", Json.str s.current), ("_type", Json.str s.type)]

/-- Marshal a `Reference`. -/
def encodeReference (r : Reference) : Json :=
  Json.obj [("_ref", Json.str r.ref), ("_type", Json.str r.type)]

/-- Marshal a `GeoLocation`. -/
def encodeGeoLocation (g : GeoLocation) : Json :=
  Json.obj [("_type", Json.str g.type), ("lat", Json.num g.lat),
    ("lng", Json.num g.lng)]

/-- Marshal an `Asset`. -/
def encodeAsset (a : Asset) : Json :=
  Json.obj [("_ref", Json.str a.ref), ("_type", Json.str a.type)]

/-- Marshal a `SanityImage`. -/
def encodeSanityImage (i : SanityImage) : Json :=
  Json.obj [("_key", Json.str i.key), ("_type", Json.str i.type),
    ("asset", encodeAsset i.asset)]

/-- Marshal a `Facility`. -/
def encodeFacility (f : Facility) : Json :=
  Json.obj [("facilityType", encodeReference f.facilityType),
    ("facilityName", Json.str f.facilityName),
    ("description", Json.str f.description),
    ("photos", encodeGoSlice encodeSanityImage f.photos)]

/-- Marshal a `Property`, fields in struct declaration order under their
JSON tag names. -/
def encodeProperty (p : Property) : Json :=
  Json.obj [("_id", Json.str p.id), ("title", Json.str p.title),
    ("slug", encodeSlug p.slug), ("developer", encodeReference p.developer),
    ("description", Json.str p.description), ("mapUrl", Json.str p.mapUrl),
    ("geoLocation", encodeGeoLocation p.geoLocation),
    ("minPrice", Json.num p.minPrice), ("maxPrice", Json.num p.maxPrice),
    ("facilities", encodeGoSlice encodeFacility p.facilities),
    ("photos", encodeGoSlice encodeSanityImage p.photos),
    ("built", Json.num (p.built : Rat)), ("createdAt", Json.str p.createdAt)]

/-! ## The refresher: `fetchPropertiesFromSanity` -/

/-- One log line emitted by `fetchPropertiesFromSanity`, in source order of
the `log.Println` calls. -/
inductive LogEvent where
  /-- "Failed to fetch properties from Sanity:" (transport error). -/
  | fetchFailed
  /-- "Sanity API returned non-200 status:". -/
  | non200Status
  /-- "Failed to read Sanity API response:". -/
  | readFailed
  /-- "Failed to parse JSON from Sanity API:". -/
  | parseFailed
  /-- "Failed to unmarshal property:" (one per dropped array element). -/
  | unmarshalPropertyFailed
  /-- "Properties successfully updated from Sanity.". -/
  | propertiesUpdated
  /-- "No properties found in Sanity API response.". -/
  | noPropertiesFound
deriving DecidableEq, Repr

/-- The observable outcome of the upstream call `http.Get(url)` together
with the body handling steps, abstracted from the network:
`transportError` models `http.Get` returning an error, `statusCode` the
response status, `bodyReadError` a failure of `ioutil.ReadAll`, and `body`
the parse of the body bytes (`none` when the bytes are not valid JSON). -/
structure FetchResponse where
  transportError : Bool
  statusCode : Nat
  bodyReadError : Bool
  body : Option Json

/-- `json.Unmarshal(body, &result)` with `result : map[string]interface{}`:
succeeds on a JSON object (yielding its members) and on JSON `null`
(leaving the `nil` map, i.e. no members); any other top-level JSON value is
a decode error. -/
def topLevelMap : Json → Option (List (String × Json))
  | Json.obj fs => some fs
  | Json.null => some []
  | _ => none

/-- The element loop of `fetchPropertiesFromSanity`: decode each element of
the `result` array in order; successes are appended to `newProperties`,
failures are logged and skipped. Returns the accumulated slice and the log
lines of the loop. -/
def decodeLoop : List Json → List Property × List LogEvent
  | [] => ([], [])
  | propertyData :: rest =>
      match decodeProperty propertyData with
      | some property =>
          let r := decodeLoop rest
          (property :: r.1, r.2)
      | none =>
          let r := decodeLoop rest
          (r.1, LogEvent.unmarshalPropertyFailed :: r.2)

/-- `fetchPropertiesFromSanity` (src/main.go lines 140–185) as a function of
the abstract upstream response and the previous value of the global
`properties` slice; returns the new value of `properties` together with the
emitted log events.  Every early `return` keeps the old slice. -/
def fetchPropertiesFromSanity (resp : FetchResponse)
    (properties : GoSlice Property) : GoSlice Property × List LogEvent :=
  if resp.transportError then
    (properties, [LogEvent.fetchFailed])
  else if resp.statusCode ≠ 200 then
    (properties, [LogEvent.non200Status])
  else if resp.bodyReadError then
    (properties, [LogEvent.readFailed])
  else
    match resp.body with
    | none => (properties, [LogEvent.parseFailed])
    | some j =>
      match topLevelMap j with
      | none => (properties, [LogEvent.parseFailed])
      | some result =>
        match jLookup result "result" with
        | some (Json.arr propertiesData) =>
            let r := decodeLoop propertiesData
            (some r.1, r.2 ++ [LogEvent.propertiesUpdated])
        | _ => (properties, [LogEvent.noPropertiesFound])

/-! ## The HTTP handlers -/

/-- A response body: either a JSON document written by
`json.NewEncoder(w).Encode` or the plain-text message of `http.Error`. -/
inductive BodyVal where
  | json (j : Json)
  | text (s : String)

/-- The observable HTTP response of a handler. -/
structure HttpResponse where
  status : Nat
  contentType : String
  body : BodyVal

/-- `GetProperties` (src/main.go lines 134–137): always content-type
`application/json`, implicit status 200, body the serialization of the
current `properties` slice (JSON `null` when the slice is still `nil`). -/
def GetProperties (properties : GoSlice Property) : HttpResponse :=
  ⟨200, "application/json", BodyVal.json (encodeGoSlice encodeProperty properties)⟩

/-- The list a Go `range` iterates over: a `nil` slice ranges as empty. -/
def goSliceList : GoSlice α → List α
  | none => []
  | some l => l

/-- The linear scan of `GetPropertyBySlug`: the first item of the slice
whose `Slug.Current` equals the path parameter. -/
def findBySlug (items : List Property) (slug : String) : Option Property :=
  items.find? (fun item => item.slug.current == slug)

/-- `GetPropertyBySlug` (src/main.go lines 188–198): on the first match,
status 200 with the property serialized as JSON; if the loop finds no match,
`http.Error(w, "Property not found", 404)`, which writes the message as
`text/plain; charset=utf-8`. -/
def GetPropertyBySlug (properties : GoSlice Property) (slug : String) :
    HttpResponse :=
  match findBySlug (goSliceList properties) slug with
  | some item => ⟨200, "application/json", BodyVal.json (encodeProperty item)⟩
  | none => ⟨404, "text/plain; charset=utf-8", BodyVal.text "Property not found"⟩

/-! ## Startup: `main` -/

/-- The startup-relevant environment of the process: whether
`godotenv.Load()` errors, and the values `os.Getenv` returns for
`SANITY_API_URL` and `PORT` (`""` when unset). -/
structure StartupEnv where
  dotenvLoadError : Bool
  sanityApiUrl : String
  port : String
deriving DecidableEq, Repr

/-- How `main` terminates its startup sequence: a `log.Fatal` (process exit)
at one of the two checks, or reaching `http.ListenAndServe` on the given
port.  Only `serve` binds a listening socket and serves requests. -/
inductive MainOutcome where
  /-- `log.Fatal("Error loading .env file:", err)`. -/
  | fatalDotenv
  /-- `log.Fatal("SANITY_API_URL is not set in the environment")`. -/
  | fatalMissingApiUrl
  /-- `http.ListenAndServe(":"+port, handler)` is reached. -/
  | serve (port : String)
deriving DecidableEq, Repr

/-- The startup sequence of `main` (src/main.go lines 74–131):
`godotenv.Load()` first — a load error is fatal before `SANITY_API_URL` is
even read; then the `SANITY_API_URL` check — empty is fatal before any
socket is bound; otherwise the server binds `PORT` (default `"8000"`). -/
def runMain (env : StartupEnv) : MainOutcome :=
  if env.dotenvLoadError then
    MainOutcome.fatalDotenv
  else if env.sanityApiUrl = "" then
    MainOutcome.fatalMissingApiUrl
  else
    MainOutcome.serve (if env.port = "" then "8000" else env.port)

/-! ## Sample data (concrete instances used to exercise the definitions) -/

/-- A well-formed upstream document for the property "garden-heights". -/
def gardenHeightsJson : Json :=
  Json.obj [("_id", Json.str "p1"), ("title", Json.str "Garden Heights"),
    ("slug", Json.obj [("current", Json.str "garden-heights"),
      ("_type", Json.str "slug")])]

/-- The `Property` that `gardenHeightsJson` decodes to. -/
def gardenHeights : Property :=
  ⟨"p1", "Garden Heights", ⟨"garden-heights", "slug"⟩, Reference.zero, "",
    "", GeoLocation.zero, 0, 0, none, none, 0, ""⟩

/-- A property with a slug distinct from "dup". -/
def rivertonLofts : Property :=
  ⟨"p2", "Riverton Lofts", ⟨"riverton-lofts", "slug"⟩, Reference.zero, "",
    "", GeoLocation.zero, 0, 0, none, none, 0, ""⟩

/-- First of two properties sharing the slug "dup". -/
def dupFirst : Property :=
  ⟨"a", "First", ⟨"dup", "slug"⟩, Reference.zero, "", "", GeoLocation.zero,
    0, 0, none, none, 0, ""⟩

/-- Second of two properties sharing the slug "dup". -/
def dupSecond : Property :=
  ⟨"b", "Second", ⟨"dup", "slug"⟩, Reference.zero, "", "", GeoLocation.zero,
    0, 0, none, none, 0, ""⟩

/-- A successful upstream response whose `result` array holds one
well-formed element and one malformed element. -/
def sampleOkResponse : FetchResponse :=
  ⟨false, 200, false,
    some (Json.obj [("result", Json.arr [gardenHeightsJson, Json.str "oops"])])⟩

/-- A successful upstream response whose body is an object without a
`result` array. -/
def sampleNoResultResponse : FetchResponse :=
  ⟨false, 200, false, some (Json.obj [("ms", Json.num 5)])⟩

/-- An upstream response whose transport failed. -/
def sampleFailResponse : FetchResponse := ⟨true, 200, false, none⟩

/-! ## The new snapshot, independent of the old one -/

/-- The part of a refresh cycle's outcome that depends only on the upstream
response: `some newList` when the cycle replaces the snapshot, `none` when
it keeps the old one.  Mirrors the branch structure of
`fetchPropertiesFromSanity`. -/
def fetchOutcome (resp : FetchResponse) : Option (List Property) :=
  if resp.transportError then none
  else if resp.statusCode ≠ 200 then none
  else if resp.bodyReadError then none
  else
    match resp.body with
    | none => none
    | some j =>
      match topLevelMap j with
      | none => none
      | some result =>
        match jLookup result "result" with
        | some (Json.arr propertiesData) => some (decodeLoop propertiesData).1
        | _ => none

/-! ## Helper lemmas -/

/-- The slice built by the decode loop is the in-order list of successfully
decoded elements. -/
theorem decodeLoop_fst (l : List Json) :
    (decodeLoop l).1 = l.filterMap decodeProperty := by
  induction l with
  | nil => rfl
  | cons x xs ih =>
      simp only [decodeLoop, List.filterMap_cons]
      cases hx : decodeProperty x <;> simp [hx, ih]

/-- The decode loop logs exactly one unmarshal failure per element that
fails to decode. -/
theorem decodeLoop_snd (l : List Json) :
    (decodeLoop l).2
      = List.replicate (l.countP fun e => (decodeProperty e).isNone)
          LogEvent.unmarshalPropertyFailed := by
  induction l with
  | nil => rfl
  | cons x xs ih =>
      simp only [decodeLoop, List.countP_cons]
      cases hx : decodeProperty x <;> simp [hx, ih, List.replicate_succ]

/-- The snapshot after a refresh cycle is the cycle's outcome when it
replaces, and the old snapshot otherwise. -/
theorem fetch_fst (resp : FetchResponse) (properties : GoSlice Property) :
    (fetchPropertiesFromSanity resp properties).1
      = (fetchOutcome resp).elim properties some := by
  unfold fetchPropertiesFromSanity fetchOutcome
  repeat' split
  all_goals rfl

/-- A transport error, a non-200 status, a body-read failure or a failed
top-level decode makes the cycle's outcome "keep the old snapshot". -/
theorem fetchOutcome_eq_none_of_failure (resp : FetchResponse)
    (h : resp.transportError = true ∨ resp.statusCode ≠ 200 ∨
      resp.bodyReadError = true ∨ resp.body.bind topLevelMap = none) :
    fetchOutcome resp = none := by
  obtain ⟨te, sc, bre, body⟩ := resp
  simp only at h
  unfold fetchOutcome
  rcases h with h | h | h | h
  · simp [h]
  · by_cases h1 : te = true <;> simp [h1, h]
  · by_cases h1 : te = true <;> by_cases h2 : sc = 200 <;> simp [h1, h2, h]
  · cases body with
    | none =>
        by_cases h1 : te = true <;> by_cases h2 : sc = 200 <;>
          by_cases h3 : bre = true <;> simp [h1, h2, h3]
    | some j =>
        have h' : topLevelMap j = none := h
        by_cases h1 : te = true <;> by_cases h2 : sc = 200 <;>
          by_cases h3 : bre = true <;> simp [h1, h2, h3, h']

/-! ## Claim theorems -/

/-- Claim C2: for every refresh cycle in which the upstream fetch fails
(transport error, non-200 HTTP status, body-read failure, or top-level JSON
decode failure), the snapshot after the cycle is identical — same entries in
the same order — to the snapshot before the cycle. -/
theorem fetch_upstream_failure_keeps_snapshot (resp : FetchResponse)
    (properties : GoSlice Property)
    (h : resp.transportError = true ∨ resp.statusCode ≠ 200 ∨
      resp.bodyReadError = true ∨ resp.body.bind topLevelMap = none) :
    (fetchPropertiesFromSanity resp properties).1 = properties := by
  rw [fetch_fst, fetchOutcome_eq_none_of_failure resp h]
  rfl

/-- Witness for C2: a transport-error cycle on a one-element snapshot keeps
the snapshot. -/
theorem fetch_upstream_failure_keeps_snapshot_witness :
    (fetchPropertiesFromSanity sampleFailResponse (some [gardenHeights])).1
      = some [gardenHeights] :=
  fetch_upstream_failure_keeps_snapshot sampleFailResponse
    (some [gardenHeights]) (Or.inl rfl)

/-- Claim C3: for every upstream response whose `result` field is an array,
the refresh completes without aborting and installs as the new snapshot
exactly the successfully decoded elements in their original order, logging
one unmarshal failure per element that fails to decode (and the completion
log line). -/
theorem fetch_result_array_installs_decoded (resp : FetchResponse)
    (properties : GoSlice Property) (result : List (String × Json))
    (propertiesData : List Json)
    (h1 : resp.transportError = false) (h2 : resp.statusCode = 200)
    (h3 : resp.bodyReadError = false)
    (h4 : resp.body.bind topLevelMap = some result)
    (h5 : jLookup result "result" = some (Json.arr propertiesData)) :
    (fetchPropertiesFromSanity resp properties).1
        = some (propertiesData.filterMap decodeProperty) ∧
    (fetchPropertiesFromSanity resp properties).2
        = List.replicate
            (propertiesData.countP fun e => (decodeProperty e).isNone)
            LogEvent.unmarshalPropertyFailed
          ++ [LogEvent.propertiesUpdated] := by
  obtain ⟨te, sc, bre, body⟩ := resp
  simp only at h1 h2 h3 h4
  subst h1 h2 h3
  cases body with
  | none => exact Option.noConfusion h4
  | some j =>
      have h4' : topLevelMap j = some result := h4
      unfold fetchPropertiesFromSanity
      simp [h4', h5, decodeLoop_fst, decodeLoop_snd]

/-- Witness for C3: a response whose `result` array holds one well-formed
and one malformed element yields a one-property snapshot and one
unmarshal-failure log line before the completion line. -/
theorem fetch_result_array_installs_decoded_witness :
    (fetchPropertiesFromSanity sampleOkResponse none).1
        = some [gardenHeights] ∧
    (fetchPropertiesFromSanity sampleOkResponse none).2
        = [LogEvent.unmarshalPropertyFailed, LogEvent.propertiesUpdated] := by
  have h := fetch_result_array_installs_decoded sampleOkResponse none
    [("result", Json.arr [gardenHeightsJson, Json.str "oops"])]
    [gardenHeightsJson, Json.str "oops"] rfl rfl rfl rfl rfl
  exact ⟨h.1.trans (by decide), h.2.trans (by decide)⟩

/-- Claim C4: for every upstream response that is a well-formed top-level
JSON object whose `result` field is absent or not an array, the refresh
keeps the previous snapshot (not cleared) and logs the single
"no properties found" line. -/
theorem fetch_no_result_array_keeps_snapshot (resp : FetchResponse)
    (properties : GoSlice Property) (result : List (String × Json))
    (h1 : resp.transportError = false) (h2 : resp.statusCode = 200)
    (h3 : resp.bodyReadError = false)
    (h4 : resp.body.bind topLevelMap = some result)
    (h5 : ∀ elems, jLookup result "result" ≠ some (Json.arr elems)) :
    fetchPropertiesFromSanity resp properties
      = (properties, [LogEvent.noPropertiesFound]) := by
  obtain ⟨te, sc, bre, body⟩ := resp
  simp only at h1 h2 h3 h4
  subst h1 h2 h3
  cases body with
  | none => exact Option.noConfusion h4
  | some j =>
      have h4' : topLevelMap j = some result := h4
      unfold fetchPropertiesFromSanity
      rcases hl : jLookup result "result" with _ | v
      · simp [h4', hl]
      · cases v <;> first
          | exact absurd hl (h5 _)
          | simp [h4', hl]

/-- Witness for C4: an object body without a `result` array keeps a
one-element snapshot and logs "no properties found". -/
theorem fetch_no_result_array_keeps_snapshot_witness :
    fetchPropertiesFromSanity sampleNoResultResponse (some [gardenHeights])
      = (some [gardenHeights], [LogEvent.noPropertiesFound]) :=
  fetch_no_result_array_keeps_snapshot sampleNoResultResponse
    (some [gardenHeights]) [("ms", Json.num 5)] rfl rfl rfl rfl
    (fun _ h => Option.noConfusion h)

/-- Claim C8: running the refresh twice against identical upstream content
yields identical observable snapshot contents after each of the two
refreshes (refresh is idempotent on the snapshot). -/
theorem fetch_idempotent (resp : FetchResponse)
    (properties : GoSlice Property) :
    (fetchPropertiesFromSanity resp
        (fetchPropertiesFromSanity resp properties).1).1
      = (fetchPropertiesFromSanity resp properties).1 := by
  rw [fetch_fst, fetch_fst]
  cases fetchOutcome resp <;> rfl

/-- Counterexample to claim C5 as stated: the initial snapshot (the `nil`
slice, before any refresh has completed) is empty, and `GetProperties`
responds 200 with content-type `application/json`, but its body is the JSON
value `null`, not the serialized empty JSON array. -/
theorem getProperties_initial_body_not_empty_array :
    goSliceList (none : GoSlice Property) = [] ∧
    (GetProperties none).status = 200 ∧
    (GetProperties none).contentType = "application/json" ∧
    (GetProperties none).body = BodyVal.json Json.null ∧
    (GetProperties none).body ≠ BodyVal.json (Json.arr []) := by
  refine ⟨rfl, rfl, rfl, rfl, fun h => ?_⟩
  rw [show (GetProperties (none : GoSlice Property)).body
      = BodyVal.json Json.null from rfl] at h
  injection h with h2
  exact Json.noConfusion h2

/-- Claim C5 (amended): on every empty snapshot, `GET /properties` responds
with status 200 and content-type `application/json`; the body is the
serialized empty JSON array when the empty snapshot was installed by a
refresh (a non-nil slice), but in the initial state before any refresh has
completed (the `nil` slice) the body is JSON `null` — still not an error. -/
theorem getProperties_empty_snapshot (s : GoSlice Property)
    (h : goSliceList s = []) :
    (GetProperties s).status = 200 ∧
    (GetProperties s).contentType = "application/json" ∧
    (s = none → (GetProperties s).body = BodyVal.json Json.null) ∧
    (∀ l, s = some l →
      (GetProperties s).body = BodyVal.json (Json.arr [])) := by
  refine ⟨rfl, rfl, ?_, ?_⟩
  · rintro rfl
    rfl
  · rintro l rfl
    simp only [goSliceList] at h
    subst h
    rfl

/-- Witness for C5 (amended): the empty snapshot installed by a refresh
serializes as the empty array with status 200. -/
theorem getProperties_empty_snapshot_witness :
    (GetProperties (some [])).status = 200 ∧
    (GetProperties (some [])).body = BodyVal.json (Json.arr []) :=
  ⟨(getProperties_empty_snapshot (some []) rfl).1,
    (getProperties_empty_snapshot (some []) rfl).2.2.2 [] rfl⟩

/-- Claim C6: if some property in the current snapshot has the requested
slug, `GET /properties/{slug}` responds 200 with a full property of that
slug serialized as JSON; if none has it, it responds 404 with the
plain-text body "Property not found". -/
theorem getPropertyBySlug_spec (properties : GoSlice Property)
    (slug : String) :
    ((∃ p, p ∈ goSliceList properties ∧ p.slug.current = slug) →
      (GetPropertyBySlug properties slug).status = 200 ∧
      ∃ q, q ∈ goSliceList properties ∧ q.slug.current = slug ∧
        GetPropertyBySlug properties slug
          = ⟨200, "application/json", BodyVal.json (encodeProperty q)⟩) ∧
    ((∀ p, p ∈ goSliceList properties → p.slug.current ≠ slug) →
      GetPropertyBySlug properties slug
        = ⟨404, "text/plain; charset=utf-8",
            BodyVal.text "Property not found"⟩) := by
  constructor
  · rintro ⟨p, hmem, hslug⟩
    rcases hf : findBySlug (goSliceList properties) slug with _ | q
    · exfalso
      simp only [findBySlug, List.find?_eq_none] at hf
      exact hf p hmem (by simp [hslug])
    · have hq := hf
      simp only [findBySlug] at hq
      have hqmem := List.mem_of_find?_eq_some hq
      have hqslug : q.slug.current = slug := by
        simpa using List.find?_some hq
      refine ⟨?_, q, hqmem, hqslug, ?_⟩ <;> simp [GetPropertyBySlug, hf]
  · intro hall
    rcases hf : findBySlug (goSliceList properties) slug with _ | q
    · simp only [GetPropertyBySlug, hf]
    · exfalso
      have hq := hf
      simp only [findBySlug] at hq
      exact hall q (List.mem_of_find?_eq_some hq)
        (by simpa using List.find?_some hq)

/-- Witness for C6: on a snapshot holding "garden-heights", that slug
returns 200 with the serialized property, and a missing slug returns the
404 with "Property not found". -/
theorem getPropertyBySlug_spec_witness :
    (GetPropertyBySlug (some [gardenHeights]) "garden-heights").status = 200 ∧
    GetPropertyBySlug (some [gardenHeights]) "does-not-exist"
      = ⟨404, "text/plain; charset=utf-8",
          BodyVal.text "Property not found"⟩ :=
  ⟨((getPropertyBySlug_spec (some [gardenHeights]) "garden-heights").1
      ⟨gardenHeights, by simp [goSliceList], rfl⟩).1,
    (getPropertyBySlug_spec (some [gardenHeights]) "does-not-exist").2
      (by intro p hp; simp [goSliceList] at hp; subst hp; decide)⟩

/-- Claim C7: the lookup by slug returns the first property in the
snapshot's order whose slug equals the given slug — in particular, among
duplicates the earliest one in the list wins. -/
theorem findBySlug_first_match (before after : List Property) (p : Property)
    (slug : String) (hp : p.slug.current = slug)
    (hbefore : ∀ q, q ∈ before → q.slug.current ≠ slug) :
    findBySlug (before ++ p :: after) slug = some p := by
  induction before with
  | nil =>
      simp only [List.nil_append, findBySlug]
      rw [List.find?_cons_of_pos]
      simp [hp]
  | cons r rest ih =>
      have hr : (r.slug.current == slug) = false := by
        simpa using hbefore r (List.mem_cons_self r rest)
      simp only [List.cons_append, findBySlug]
      rw [List.find?_cons_of_neg]
      · exact ih (fun q hq => hbefore q (List.mem_cons_of_mem r hq))
      · simp [hr]

/-- Witness for C7: with two properties sharing the slug "dup" after a
non-matching one, the scan returns the earlier duplicate. -/
theorem findBySlug_first_match_witness :
    findBySlug [rivertonLofts, dupFirst, dupSecond] "dup" = some dupFirst :=
  findBySlug_first_match [rivertonLofts] [dupSecond] dupFirst "dup" rfl
    (by intro q hq; simp at hq; subst hq; decide)

/-- Claim C9: if `SANITY_API_URL` is absent (empty) at startup, the process
terminates with a fatal error — at the dotenv check or at the URL check —
and never reaches `http.ListenAndServe`, so no HTTP request is ever
served. -/
theorem missing_api_url_is_fatal (env : StartupEnv)
    (h : env.sanityApiUrl = "") :
    (runMain env = MainOutcome.fatalDotenv ∨
      runMain env = MainOutcome.fatalMissingApiUrl) ∧
    ∀ p, runMain env ≠ MainOutcome.serve p := by
  unfold runMain
  by_cases hd : env.dotenvLoadError <;> simp [hd, h]

/-- Witness for C9: with `.env` loading fine and `SANITY_API_URL` empty,
startup exits at the URL check and never serves. -/
theorem missing_api_url_is_fatal_witness :
    runMain ⟨false, "", "9000"⟩ = MainOutcome.fatalMissingApiUrl ∧
    runMain ⟨false, "", "9000"⟩ ≠ MainOutcome.serve "9000" :=
  ⟨rfl, (missing_api_url_is_fatal ⟨false, "", "9000"⟩ rfl).2 "9000"⟩

/-- Claim C10: if `godotenv.Load()` fails, startup terminates fatally at
the dotenv check — before `SANITY_API_URL` is read (the outcome is
`fatalDotenv` whatever its value) and before binding a listening socket —
even when `SANITY_API_URL` and `PORT` are set. -/
theorem dotenv_load_error_is_fatal (url port : String) :
    runMain ⟨true, url, port⟩ = MainOutcome.fatalDotenv ∧
    ∀ p, runMain ⟨true, url, port⟩ ≠ MainOutcome.serve p := by
  refine ⟨rfl, fun p h => ?_⟩
  exact MainOutcome.noConfusion h

/-- Witness for C10: with both variables set but `.env` loading failing,
startup exits at the dotenv check and never serves. -/
theorem dotenv_load_error_is_fatal_witness :
    runMain ⟨true, "https://api.example/v1?query=", "9000"⟩
        = MainOutcome.fatalDotenv ∧
    runMain ⟨true, "https://api.example/v1?query=", "9000"⟩
        ≠ MainOutcome.serve "9000" :=
  ⟨(dotenv_load_error_is_fatal "https://api.example/v1?query=" "9000").1,
    (dotenv_load_error_is_fatal "https://api.example/v1?query=" "9000").2
      "9000"⟩
